import Mathlib

/-!
# Verification of the StarkNet contract-module expander

Shallow embedding of `crates/cairo-lang-starknet/src/plugin/contract.rs`:
the two plugin entry points `handle_module` and `handle_contract_by_storage`,
the per-function rewriter `handle_entry_point`, and the L1-handler signature
validator `validate_l1_handler_first_parameter`, together with the parts of
their collaborators that the properties below need.

Collaborators that live in the same repository but outside the file above
(`plugin/consts.rs`, `plugin/utils.rs`, `plugin/entry_point.rs`,
`plugin/events.rs`, `plugin/storage.rs`, `contract::starknet_keccak`,
`cairo_lang_defs::db::get_all_path_leafs`) are modelled from the
specification; each such definition says so in its doc comment.

Syntax-tree values are embedded structurally: a node keeps the fields the
expander reads (name, attributes, parameters, modifiers, stable pointer) and
stable pointers are natural numbers.  `RewriteNode` mutation through
`modify_child` / `set_str` is embedded as the corresponding functional update
of the structured declaration.
-/

namespace StarknetPlugin

/-- A plugin diagnostic: a message plus the stable pointer of the node it
points at (stable pointers are embedded as `Nat` identifiers). -/
structure PluginDiagnostic where
  message : String
  stable_ptr : Nat
deriving DecidableEq, Repr

/-- A parameter modifier (`ref` or `mut`). -/
inductive Modifier where
  | Ref
  | Mut
deriving DecidableEq, Repr

/-- A function parameter: stable pointer, modifier list, name, and the text of
its type clause. -/
structure Param where
  ptr : Nat
  modifiers : List Modifier
  name : String
  ty : String
deriving DecidableEq, Repr

/-- A parameter list node (`ast::ParamList`): its own stable pointer and its
parameter elements. -/
structure ParamList where
  ptr : Nat
  elements : List Param
deriving DecidableEq, Repr

/-- A wrapped generic-parameter list (`ast::WrappedGenericParamList`): stable
pointer and source text such as `<T>`. -/
structure GenericParams where
  ptr : Nat
  text : String
deriving DecidableEq, Repr

/-- A function declaration node: name, optional generic-parameter list, and
the signature parameter list. -/
structure FunctionDeclaration where
  name : String
  generic_params : Option GenericParams
  params : ParamList
deriving DecidableEq, Repr

/-- A function with a body (`ast::FunctionWithBody`): stable pointer,
attribute names, and declaration. -/
structure FunctionWithBody where
  ptr : Nat
  attributes : List String
  declaration : FunctionDeclaration
deriving DecidableEq, Repr

/-- One leaf of a `use` path: its stable pointer and bound identifier.
`get_all_path_leafs` (in `cairo-lang-defs`, outside `src/`) enumerates these;
we model a `use` item as directly carrying its leaves. -/
structure UseLeaf where
  ptr : Nat
  ident : String
deriving DecidableEq, Repr

/-- An item inside an `impl` body. -/
inductive ImplItem where
  | Function (f : FunctionWithBody)
  | Other (ptr : Nat)
deriving DecidableEq, Repr

/-- A module-body item, with the fields the expander reads. -/
inductive Item where
  | Constant (ptr : Nat) (name : String)
  | Module (ptr : Nat) (name : String)
  | Use (ptr : Nat) (leaves : List UseLeaf)
  | Impl (ptr : Nat) (name : String) (attributes : List String)
      (body : Option (List ImplItem))
  | Struct (ptr : Nat) (name : String) (attributes : List String)
  | Enum (ptr : Nat) (name : String)
  | TypeAlias (ptr : Nat) (name : String)
  | ExternFunction (ptr : Nat)
  | ExternType (ptr : Nat)
  | Trait (ptr : Nat)
  | FreeFunction (f : FunctionWithBody)
  | Missing (ptr : Nat)
  | ImplAlias (ptr : Nat)
deriving DecidableEq, Repr

/-- A module body: its ordered item list. -/
structure ModuleBody where
  items : List Item
deriving DecidableEq, Repr

/-- `ast::MaybeModuleBody`: either a body, or no body (the empty-body node has
its own stable pointer, used by diagnostics). -/
inductive MaybeModuleBody where
  | some (body : ModuleBody)
  | none (ptr : Nat)
deriving DecidableEq, Repr

/-- A module item: stable pointer, name, attribute names, trivia-less source
text (input to the keccak digest), and body. -/
structure ItemModule where
  ptr : Nat
  name : String
  attributes : List String
  text : String
  body : MaybeModuleBody
deriving DecidableEq, Repr

/-- `has_attr` on any attribute carrier: membership of the attribute name. -/
def hasAttr (attrs : List String) (attr : String) : Bool :=
  attrs.contains attr

/-- A stand-in rendering of an item as source text (used for
`RewriteNode::Copied` nodes; the expander never inspects this text, it only
re-emits it). -/
def itemText : Item → String
  | .Constant _ n => "const " ++ n ++ ";"
  | .Module _ n => "mod " ++ n ++ ";"
  | .Use _ _ => "use ...;"
  | .Impl _ n _ _ => "impl " ++ n ++ " ..."
  | .Struct _ n _ => "struct " ++ n ++ " ..."
  | .Enum _ n => "enum " ++ n ++ " ..."
  | .TypeAlias _ n => "type " ++ n ++ ";"
  | .ExternFunction _ => "extern fn ...;"
  | .ExternType _ => "extern type ...;"
  | .Trait _ => "trait ..."
  | .FreeFunction f => "fn " ++ f.declaration.name ++ " ..."
  | .Missing _ => ""
  | .ImplAlias _ => "impl ... = ...;"

/-- `RewriteNode` from `cairo_lang_semantic::patcher`: literal text, a copied
syntax node (here: a copied item), or a modified node with an ordered child
list. -/
inductive RewriteNode where
  | Text (s : String)
  | Copied (item : Item)
  | Modified (children : List RewriteNode)
deriving Repr

mutual

/-- Decidable equality for `RewriteNode` (hand-written because of the nested
`List`). -/
def RewriteNode.decEq : (a b : RewriteNode) → Decidable (a = b)
  | .Text s, .Text t =>
      if h : s = t then .isTrue (by rw [h]) else .isFalse (by simp [h])
  | .Text _, .Copied _ => .isFalse (by intro h; cases h)
  | .Text _, .Modified _ => .isFalse (by intro h; cases h)
  | .Copied a, .Copied b =>
      if h : a = b then .isTrue (by rw [h]) else .isFalse (by simp [h])
  | .Copied _, .Text _ => .isFalse (by intro h; cases h)
  | .Copied _, .Modified _ => .isFalse (by intro h; cases h)
  | .Modified _, .Text _ => .isFalse (by intro h; cases h)
  | .Modified _, .Copied _ => .isFalse (by intro h; cases h)
  | .Modified xs, .Modified ys =>
      match RewriteNode.decEqList xs ys with
      | .isTrue h => .isTrue (by rw [h])
      | .isFalse h => .isFalse (by intro hc; cases hc; exact h rfl)

/-- Pointwise decidable equality on `RewriteNode` lists. -/
def RewriteNode.decEqList : (xs ys : List RewriteNode) → Decidable (xs = ys)
  | [], [] => .isTrue rfl
  | [], _ :: _ => .isFalse (by intro h; cases h)
  | _ :: _, [] => .isFalse (by intro h; cases h)
  | x :: xs, y :: ys =>
      match RewriteNode.decEq x y, RewriteNode.decEqList xs ys with
      | .isTrue h1, .isTrue h2 => .isTrue (by rw [h1, h2])
      | .isFalse h1, _ => .isFalse (by intro hc; cases hc; exact h1 rfl)
      | _, .isFalse h2 => .isFalse (by intro hc; cases hc; exact h2 rfl)

end

instance : DecidableEq RewriteNode := RewriteNode.decEq

mutual

/-- Render a `RewriteNode` to text (the `PatchBuilder` finalization, without
patch bookkeeping). -/
def RewriteNode.render : RewriteNode → String
  | .Text s => s
  | .Copied item => itemText item
  | .Modified children => RewriteNode.renderList children

/-- Render a child list in order. -/
def RewriteNode.renderList : List RewriteNode → String
  | [] => ""
  | c :: cs => RewriteNode.render c ++ RewriteNode.renderList cs

end

/-! ## Constants (`plugin/consts.rs`, outside `src/`)

Modelled from the spec: §6 lists the constant names and fixes
`STORAGE_STRUCT_NAME = "Storage"` and
`L1_HANDLER_FIRST_PARAM_NAME = "from_address"`; the attribute names are the
recognized attributes of §6. -/

/-- Modelled from the spec: the module attribute gating expansion. -/
def CONTRACT_ATTR : String := "contract"

/-- Modelled from the spec: the attribute marking event functions. -/
def EVENT_ATTR : String := "event"

/-- Modelled from the spec: the attribute marking external impls/functions. -/
def EXTERNAL_ATTR : String := "external"

/-- Modelled from the spec: the required storage struct name. -/
def STORAGE_STRUCT_NAME : String := "Storage"

/-- Modelled from the spec: the required L1-handler second-parameter name. -/
def L1_HANDLER_FIRST_PARAM_NAME : String := "from_address"

/-- Modelled from the spec: name of the generated ABI trait. -/
def ABI_TRAIT : String := "__abi"

/-- Modelled from the spec: name of the generated external submodule. -/
def EXTERNAL_MODULE : String := "__external"

/-- Modelled from the spec: name of the generated L1-handler submodule. -/
def L1_HANDLER_MODULE : String := "__l1_handler"

/-- Modelled from the spec: name of the generated constructor submodule. -/
def CONSTRUCTOR_MODULE : String := "__constructor"

/-! ## Helpers (`plugin/utils.rs`, outside `src/`) -/

/-- Modelled from the spec: `is_felt252` holds when the parameter type is
`felt252` (§4.5). -/
def is_felt252 (ty : String) : Bool :=
  ty = "felt252"

/-- Modelled from the spec: `is_mut_param` holds when the parameter carries
the `mut` modifier (§4.4 clears "the `mut` modifier of every parameter that
carries one"). -/
def is_mut_param (p : Param) : Bool :=
  p.modifiers.contains Modifier.Mut

/-- Modelled from the spec: strip at most one leading underscore from a
parameter name (§4.5, "leading underscore tolerated"). -/
def maybe_strip_underscore (s : String) : String :=
  match s.data with
  | '_' :: rest => String.mk rest
  | _ => s

/-! ## Entry-point kinds (`plugin/entry_point.rs`, outside `src/`) -/

/-- The three entry-point kinds (spec §3). -/
inductive EntryPointKind where
  | External
  | Constructor
  | L1Handler
deriving DecidableEq, Repr

/-- Modelled from the spec: classify a function as an entry point by its
attribute (`external`, `constructor`, `l1_handler`; §6). -/
def EntryPointKind.try_from_function_with_body (f : FunctionWithBody) :
    Option EntryPointKind :=
  if hasAttr f.attributes "external" then some .External
  else if hasAttr f.attributes "constructor" then some .Constructor
  else if hasAttr f.attributes "l1_handler" then some .L1Handler
  else none

/-- Modelled from the spec: the attribute name an entry-point kind maps to
(§3, §4.4 step 3). -/
def EntryPointKind.get_attr : EntryPointKind → String
  | .External => "external"
  | .Constructor => "constructor"
  | .L1Handler => "l1_handler"

/-- Modelled from the spec: the external wrapper generator (§1 lists
entry-point wrapper code generation as an external collaborator; §4.4 only
requires that on success a code fragment is appended).  We model it as always
succeeding with a fragment containing the qualified function name. -/
def generate_entry_point_wrapper (f : FunctionWithBody)
    (function_name : RewriteNode) :
    Except (List PluginDiagnostic) RewriteNode :=
  .ok (RewriteNode.Modified
    [RewriteNode.Text ("fn " ++ f.declaration.name ++ "_wrapper for "),
     function_name])

/-- Modelled from the spec: the event lowerer (§4.7; internals are an
external collaborator).  We model it as returning the emission body and ABI
event row for the function, with no diagnostics. -/
def handle_event (f : FunctionWithBody) :
    Option (RewriteNode × RewriteNode) × List PluginDiagnostic :=
  (some (RewriteNode.Text ("event_fn " ++ f.declaration.name),
         RewriteNode.Text ("event_row " ++ f.declaration.name)), [])

/-- Modelled from the spec: the storage-struct expander (§4.8; internals are
an external collaborator).  It receives the use-set fragment and the
`has_event` flag and returns a code fragment plus diagnostics; we model it as
returning a fragment built from its inputs, with no diagnostics. -/
def handle_storage_struct (extra_uses_node : RewriteNode) (has_event : Bool) :
    RewriteNode × List PluginDiagnostic :=
  (RewriteNode.Modified
    [RewriteNode.Text "storage_expansion(",
     extra_uses_node,
     RewriteNode.Text (if has_event then ", event)" else ")")], [])

/-- Modelled from the spec: `starknet_keccak` (§4.10) is Keccak-256 of the
text masked to the `felt252` field; no property below depends on the digest
function itself, only on its determinism as a function, so we use a simple
deterministic byte-fold reduced modulo the `felt252` prime as a stand-in. -/
def starknet_keccak (s : String) : Nat :=
  (s.toUTF8.toList.foldl (fun acc b => acc * 257 + b.toNat) 0) %
    (2 ^ 251 + 17 * 2 ^ 192 + 1)

/-! ## Plugin results (`cairo_lang_defs::plugin`) -/

/-- Auxiliary data attached to a generated file (`StarkNetContractAuxData`):
the contract names in the file.  The patch vector is bookkeeping for
span-mapping and is not modelled. -/
structure StarkNetContractAuxData where
  contracts : List String
deriving DecidableEq, Repr

/-- A generated file: name, rendered content, auxiliary data. -/
structure PluginGeneratedFile where
  name : String
  content : String
  aux_data : StarkNetContractAuxData
deriving DecidableEq, Repr

/-- The result of a plugin invocation. -/
structure PluginResult where
  code : Option PluginGeneratedFile
  diagnostics : List PluginDiagnostic
  remove_original_item : Bool
deriving DecidableEq, Repr

/-- `PluginResult::default()`: no code, no diagnostics, no removal. -/
def PluginResult.default : PluginResult :=
  { code := none, diagnostics := [], remove_original_item := false }

/-! ## The gate: `handle_module` (contract.rs lines 29–69) -/

/-- "Contracts without body are not supported." -/
def noBodyMsg : String := "Contracts without body are not supported."

/-- "Contracts must define a \x27Storage\x27 struct." -/
def noStorageMsg : String := "Contracts must define a \x27Storage\x27 struct."

/-- "\x27Storage\x27 struct must be annotated with #[starknet::storage]." -/
def noStorageAttrMsg : String :=
  "\x27Storage\x27 struct must be annotated with #[starknet::storage]."

/-- Whether a body item is a struct named `Storage` (the `find` predicate of
`handle_module`). -/
def isStorageStruct : Item → Bool
  | .Struct _ n _ => n = "Storage"
  | _ => false

/-- The attribute list of an item, for the `has_attr` check on the found
storage struct. -/
def itemAttributes : Item → List String
  | .Struct _ _ attrs => attrs
  | .Impl _ _ attrs _ => attrs
  | .FreeFunction f => f.attributes
  | _ => []

/-- `handle_module` (contract.rs lines 29–69): the structural gate.  Returns
the default result when the `contract` attribute is absent, a single
diagnostic for a missing body, a missing `Storage` struct, or a `Storage`
struct without the `starknet::storage` attribute, and the default result
otherwise (generation itself happens in `handle_contract_by_storage`). -/
def handle_module (module_ast : ItemModule) : PluginResult :=
  if ¬ hasAttr module_ast.attributes "contract" then
    PluginResult.default
  else
    match module_ast.body with
    | .none _ =>
        { code := none,
          diagnostics := [⟨noBodyMsg, module_ast.ptr⟩],
          remove_original_item := false }
    | .some body =>
        match body.items.find? isStorageStruct with
        | Option.none =>
            { code := none,
              diagnostics := [⟨noStorageMsg, module_ast.ptr⟩],
              remove_original_item := false }
        | Option.some storage_struct_ast =>
            if ¬ hasAttr (itemAttributes storage_struct_ast) "starknet::storage"
            then
              { code := none,
                diagnostics := [⟨noStorageAttrMsg, module_ast.ptr⟩],
                remove_original_item := false }
            else PluginResult.default

/-! ## Generation record (contract.rs lines 72–80) -/

/-- An ABI-trait declaration row: the entry-point attribute and the (trimmed,
`mut`-cleared) declaration it renders.  In the source this is a
`RewriteNode`; the structured form keeps the parameter modifiers observable,
and `AbiRow.toRewriteNode` recovers the exact pushed node. -/
structure AbiRow where
  attr : String
  decl : FunctionDeclaration
deriving DecidableEq, Repr

/-- Render a parameter as source text: modifiers, name, type clause. -/
def renderParam (p : Param) : String :=
  String.join (p.modifiers.map (fun m =>
    match m with
    | .Ref => "ref "
    | .Mut => "mut ")) ++ p.name ++ ": " ++ p.ty

/-- Render a function declaration as trimmed source text. -/
def renderDeclaration (d : FunctionDeclaration) : String :=
  "fn " ++ d.name ++
    (match d.generic_params with
     | Option.some g => g.text
     | Option.none => "") ++
    "(" ++ String.intercalate ", " (d.params.elements.map renderParam) ++ ")"

/-- The `RewriteNode` pushed for an ABI row (contract.rs lines 371–375):
`#[<attr>]`, newline-indent, the declaration, `;`, newline-indent. -/
def AbiRow.toRewriteNode (r : AbiRow) : RewriteNode :=
  RewriteNode.Modified
    [RewriteNode.Text ("#[" ++ r.attr ++ "]\n        "),
     RewriteNode.Text (renderDeclaration r.decl),
     RewriteNode.Text ";\n        "]

/-- `ContractGenerationData` (contract.rs lines 72–80): the ordered fragment
lists accumulated during one module expansion. -/
structure ContractGenerationData where
  generated_external_functions : List RewriteNode
  generated_constructor_functions : List RewriteNode
  generated_l1_handler_functions : List RewriteNode
  abi_functions : List AbiRow
  event_functions : List RewriteNode
  abi_events : List RewriteNode
deriving DecidableEq, Repr

/-- `ContractGenerationData::default()`. -/
def ContractGenerationData.default : ContractGenerationData :=
  { generated_external_functions := []
    generated_constructor_functions := []
    generated_l1_handler_functions := []
    abi_functions := []
    event_functions := []
    abi_events := [] }

/-! ## L1-handler validation (contract.rs lines 398–430) -/

/-- "The second parameter of an L1 handler must be of type `felt252`." -/
def l1TypeMsg : String :=
  "The second parameter of an L1 handler must be of type `felt252`."

/-- "The second parameter of an L1 handler must be named \x27from_address\x27." -/
def l1NameMsg : String :=
  "The second parameter of an L1 handler must be named \x27from_address\x27."

/-- "An L1 handler must have the \x27from_address\x27 as its second parameter." -/
def l1MissingMsg : String :=
  "An L1 handler must have the \x27from_address\x27 as its second parameter."

/-- `validate_l1_handler_first_parameter` (contract.rs lines 398–430):
validate type and name of the parameter at index 1, or report it missing. -/
def validate_l1_handler_first_parameter (params : ParamList)
    (diagnostics : List PluginDiagnostic) : List PluginDiagnostic :=
  match params.elements.get? 1 with
  | Option.some first_param =>
      let diagnostics :=
        if ¬ is_felt252 first_param.ty then
          diagnostics ++ [⟨l1TypeMsg, first_param.ptr⟩]
        else diagnostics
      if maybe_strip_underscore first_param.name ≠ L1_HANDLER_FIRST_PARAM_NAME
      then diagnostics ++ [⟨l1NameMsg, first_param.ptr⟩]
      else diagnostics
  | Option.none =>
      diagnostics ++ [⟨l1MissingMsg, params.ptr⟩]

/-! ## Entry-point handling (contract.rs lines 335–394) -/

/-- "Contract entry points cannot have generic arguments" -/
def genericArgsMsg : String :=
  "Contract entry points cannot have generic arguments"

/-- The `mut`-clearing loop of `handle_entry_point` (contract.rs lines
362–370): every parameter for which `is_mut_param` holds has its modifier
list set to empty. -/
def clearMutParams (ps : List Param) : List Param :=
  ps.map (fun p => if is_mut_param p then { p with modifiers := [] } else p)

/-- `handle_entry_point` (contract.rs lines 335–394): report generic
parameters, push the `mut`-cleared ABI row, and on wrapper-generation success
push the wrapper (validating the L1-handler signature first for that kind)
followed by a newline-indent separator. -/
def handle_entry_point (entry_point_kind : EntryPointKind)
    (item_function : FunctionWithBody) (function_name : RewriteNode)
    (diagnostics : List PluginDiagnostic) (data : ContractGenerationData) :
    List PluginDiagnostic × ContractGenerationData :=
  let attr := entry_point_kind.get_attr
  let declaration := item_function.declaration
  let diagnostics :=
    match declaration.generic_params with
    | Option.some generic_params =>
        diagnostics ++ [⟨genericArgsMsg, generic_params.ptr⟩]
    | Option.none => diagnostics
  let declaration_node : FunctionDeclaration :=
    { declaration with
        params := ⟨declaration.params.ptr, clearMutParams declaration.params.elements⟩ }
  let params := declaration.params
  let data :=
    { data with abi_functions := data.abi_functions ++ [⟨attr, declaration_node⟩] }
  match generate_entry_point_wrapper item_function function_name with
  | .ok generated_function =>
      let sep := RewriteNode.Text "\n        "
      match entry_point_kind with
      | .Constructor =>
          (diagnostics,
           { data with generated_constructor_functions :=
               data.generated_constructor_functions ++ [generated_function, sep] })
      | .L1Handler =>
          (validate_l1_handler_first_parameter params diagnostics,
           { data with generated_l1_handler_functions :=
               data.generated_l1_handler_functions ++ [generated_function, sep] })
      | .External =>
          (diagnostics,
           { data with generated_external_functions :=
               data.generated_external_functions ++ [generated_function, sep] })
  | .error entry_point_diagnostics =>
      (diagnostics ++ entry_point_diagnostics, data)

/-! ## First pass over the body: use-set, `has_event`, kept items
(contract.rs lines 110–161) -/

/-- State of the first pass: the ordered use-set (an `OrderedHashMap` is
embedded as an association list in insertion order), the `has_event` flag,
and the kept original items. -/
structure ScanState where
  extra_uses : List (String × String)
  has_event : Bool
  kept_original_items : List RewriteNode
deriving DecidableEq, Repr

/-- The initial first-pass state. -/
def ScanState.init : ScanState :=
  { extra_uses := [], has_event := false, kept_original_items := [] }

/-- `OrderedHashMap::entry(..).or_insert_with_key(..)`: insert only when the
key is absent (first insertion wins), preserving insertion order. -/
def orInsert (m : List (String × String)) (key value : String) :
    List (String × String) :=
  if m.any (fun p => p.1 = key) then m else m ++ [(key, value)]

/-- Insert `ident → super::ident` into the use-set of a scan state. -/
def insertSuperUse (st : ScanState) (ident : String) : ScanState :=
  { st with extra_uses := orInsert st.extra_uses ident ("super::" ++ ident) }

/-- The `continue` guard of the first pass (contract.rs lines 117–122):
event functions and the `Storage` struct only generate other code. -/
def itemSkipped : Item → Bool
  | .FreeFunction f => hasAttr f.attributes EVENT_ATTR
  | .Struct _ n _ => n = STORAGE_STRUCT_NAME
  | _ => false

/-- Whether an item is a struct or enum named `Event` (contract.rs lines
123–127). -/
def itemIsEventDecl : Item → Bool
  | .Struct _ n _ => n = "Event"
  | .Enum _ n => n = "Event"
  | _ => false

/-- Process the `use`-leaf walk of the first pass (contract.rs lines
133–142): set `has_event` for a leaf named `Event` and insert every leaf
into the use-set. -/
def scanUseLeaves (st : ScanState) (leaves : List UseLeaf) : ScanState :=
  leaves.foldl
    (fun st leaf =>
      let st := if leaf.ident = "Event" then { st with has_event := true } else st
      { st with extra_uses :=
          orInsert st.extra_uses leaf.ident ("super::" ++ leaf.ident) })
    st

/-- One iteration of the first pass (contract.rs lines 116–161).  The
`ImplAlias` arm is an explicit `todo!()` in the source; it is embedded as
`Except.error ()` (a panic). -/
def scanItem (st : ScanState) (item : Item) : Except Unit ScanState :=
  if itemSkipped item then .ok st
  else
    let st := if itemIsEventDecl item then { st with has_event := true } else st
    let st := { st with kept_original_items :=
        st.kept_original_items ++ [RewriteNode.Copied item] }
    match item with
    | .Constant _ n => .ok (insertSuperUse st n)
    | .Module _ n => .ok (insertSuperUse st n)
    | .Use _ leaves => .ok (scanUseLeaves st leaves)
    | .Impl _ n _ _ => .ok (insertSuperUse st n)
    | .Struct _ n _ => .ok (insertSuperUse st n)
    | .Enum _ n => .ok (insertSuperUse st n)
    | .TypeAlias _ n => .ok (insertSuperUse st n)
    | .ExternFunction _ => .ok st
    | .ExternType _ => .ok st
    | .Trait _ => .ok st
    | .FreeFunction _ => .ok st
    | .Missing _ => .ok st
    | .ImplAlias _ => .error ()

/-- The whole first pass over the item list. -/
def scanItems (st : ScanState) : List Item → Except Unit ScanState
  | [] => .ok st
  | item :: items =>
      match scanItem st item with
      | .error e => .error e
      | .ok st => scanItems st items

/-- The fixed seed set (contract.rs lines 163–169). -/
def seedUses : List (String × String) :=
  [("ClassHashSerde", "starknet::class_hash::ClassHashSerde"),
   ("ContractAddressSerde", "starknet::contract_address::ContractAddressSerde"),
   ("StorageAddressSerde", "starknet::storage_access::StorageAddressSerde"),
   ("OptionTrait", "option::OptionTrait"),
   ("OptionTraitImpl", "option::OptionTraitImpl")]

/-- Merge the fixed seed set after the user names (contract.rs lines
163–173): `or_insert`, so existing keys are never overridden. -/
def addSeedUses (m : List (String × String)) : List (String × String) :=
  seedUses.foldl (fun m p => orInsert m p.1 p.2) m

/-- The `extra_uses` rewrite node (contract.rs lines 175–180): one
`\n        use <path>;` text per use-set value, in order. -/
def extraUsesNode (m : List (String × String)) : RewriteNode :=
  RewriteNode.Modified
    (m.map (fun p => RewriteNode.Text ("\n        use " ++ p.2 ++ ";")))

/-! ## Second pass over the body: fragment generation
(contract.rs lines 182–250) -/

/-- State of the second pass: diagnostics, the generation record, and the
storage code fragment. -/
structure GenState where
  diagnostics : List PluginDiagnostic
  data : ContractGenerationData
  storage_code : RewriteNode
deriving DecidableEq, Repr

/-- The initial second-pass state (empty diagnostics, default data, empty
storage code; contract.rs lines 110, 182, 184). -/
def GenState.init : GenState :=
  { diagnostics := [], data := ContractGenerationData.default,
    storage_code := RewriteNode.Text "" }

/-- The impl-body inner loop of the second pass (contract.rs lines 217–238):
run `handle_entry_point` with kind `External` and qualified name
`<impl>::<func>` on every function of the impl body. -/
def genImplFunctions (impl_name : String) (st : GenState)
    (impl_items : List ImplItem) : GenState :=
  impl_items.foldl
    (fun st impl_item =>
      match impl_item with
      | .Function item_function =>
          let function_name := RewriteNode.Modified
            [RewriteNode.Text impl_name, RewriteNode.Text "::",
             RewriteNode.Text item_function.declaration.name]
          let r := handle_entry_point .External item_function function_name
            st.diagnostics st.data
          { st with diagnostics := r.1, data := r.2 }
      | .Other _ => st)
    st

/-- One iteration of the second pass (contract.rs lines 185–249). -/
def genItem (extra_uses_node : RewriteNode) (has_event : Bool)
    (st : GenState) (item : Item) : GenState :=
  match item with
  | .FreeFunction item_function =>
      if hasAttr item_function.attributes EVENT_ATTR then
        let r := handle_event item_function
        let st :=
          match r.1 with
          | Option.some ev =>
              { st with data :=
                  { st.data with
                      event_functions := st.data.event_functions ++ [ev.1],
                      abi_events := st.data.abi_events ++ [ev.2] } }
          | Option.none => st
        { st with diagnostics := st.diagnostics ++ r.2 }
      else
        match EntryPointKind.try_from_function_with_body item_function with
        | Option.none => st
        | Option.some entry_point_kind =>
            let function_name :=
              RewriteNode.Text item_function.declaration.name
            let r := handle_entry_point entry_point_kind item_function
              function_name st.diagnostics st.data
            { st with diagnostics := r.1, data := r.2 }
  | .Impl _ impl_name attrs body =>
      if ¬ hasAttr attrs EXTERNAL_ATTR then st
      else
        match body with
        | Option.some impl_items => genImplFunctions impl_name st impl_items
        | Option.none => st
  | .Struct _ n _ =>
      if n = STORAGE_STRUCT_NAME then
        let r := handle_storage_struct extra_uses_node has_event
        { st with storage_code := r.1, diagnostics := st.diagnostics ++ r.2 }
      else st
  | _ => st

/-- The second pass from an arbitrary intermediate state. -/
def genItemsFrom (extra_uses_node : RewriteNode) (has_event : Bool)
    (st : GenState) (items : List Item) : GenState :=
  items.foldl (genItem extra_uses_node has_event) st

/-- The whole second pass. -/
def genItems (extra_uses_node : RewriteNode) (has_event : Bool)
    (items : List Item) : GenState :=
  genItemsFrom extra_uses_node has_event GenState.init items

/-! ## Assembly and `handle_contract_by_storage`
(contract.rs lines 83–332) -/

/-- Render the canonical output template (contract.rs lines 256–314) with all
fragments interpolated, as the `PatchBuilder` would finalize it. -/
def assembleContent (module_ast : ItemModule) (extra_uses_node : RewriteNode)
    (st : GenState) : String :=
  let test_class_hash := starknet_keccak module_ast.text
  "use starknet::SyscallResultTrait;\n" ++
  "use starknet::SyscallResultTraitImpl;\n\n" ++
  "const TEST_CLASS_HASH: felt252 = " ++ toString test_class_hash ++ ";\n" ++
  st.storage_code.render ++ "\n\n" ++
  RewriteNode.renderList st.data.event_functions ++ "\n\n" ++
  "trait " ++ ABI_TRAIT ++ "<Storage> \x7b\n    " ++
  RewriteNode.renderList (st.data.abi_functions.map AbiRow.toRewriteNode) ++
  "\n    " ++ RewriteNode.renderList st.data.abi_events ++ "\n\x7d\n\n" ++
  "mod " ++ EXTERNAL_MODULE ++ " \x7b" ++ extra_uses_node.render ++ "\n\n    " ++
  RewriteNode.renderList st.data.generated_external_functions ++ "\n\x7d\n\n" ++
  "mod " ++ L1_HANDLER_MODULE ++ " \x7b" ++ extra_uses_node.render ++ "\n\n    " ++
  RewriteNode.renderList st.data.generated_l1_handler_functions ++ "\n\x7d\n\n" ++
  "mod " ++ CONSTRUCTOR_MODULE ++ " \x7b" ++ extra_uses_node.render ++ "\n\n    " ++
  RewriteNode.renderList st.data.generated_constructor_functions ++ "\n\x7d\n"

/-- The third syntactic ancestor of the struct node
(`struct_ast.as_syntax_node().parent()?.parent()?.parent()?` plus the
`SyntaxKind::ItemModule` test, contract.rs lines 87–91): absent, a non-module
node, or a module. -/
inductive AncestorModule where
  | notModule (ptr : Nat)
  | module (m : ItemModule)
deriving DecidableEq, Repr

/-- The outcome of `handle_contract_by_storage`: either the Rust function
panics (the `todo!()` on impl-alias items) or it returns its
`Option<PluginResult>`. -/
inductive Outcome where
  | panicked
  | returned (r : Option PluginResult)
deriving DecidableEq, Repr

/-- `handle_contract_by_storage` (contract.rs lines 83–332): resolve the
enclosing module, gate on the `contract` attribute and a body, run the two
passes, and assemble the replacement module. -/
def handle_contract_by_storage (parent3 : Option AncestorModule) : Outcome :=
  match parent3 with
  | Option.none => .returned Option.none
  | Option.some (.notModule _) => .returned Option.none
  | Option.some (.module module_ast) =>
      if ¬ hasAttr module_ast.attributes CONTRACT_ATTR then
        .returned Option.none
      else
        match module_ast.body with
        | .none empty_body_ptr =>
            .returned (Option.some
              { code := none,
                diagnostics := [⟨noBodyMsg, empty_body_ptr⟩],
                remove_original_item := false })
        | .some body =>
            match scanItems ScanState.init body.items with
            | .error _ => .panicked
            | .ok scan =>
                let extra_uses := addSeedUses scan.extra_uses
                let extra_uses_node := extraUsesNode extra_uses
                let st := genItems extra_uses_node scan.has_event body.items
                let content := assembleContent module_ast extra_uses_node st
                .returned (Option.some
                  { code := Option.some
                      { name := "contract",
                        content := content,
                        aux_data := { contracts := [module_ast.name] } },
                    diagnostics := st.diagnostics,
                    remove_original_item := true })

/-! ## Derived observations and concrete fixtures -/

/-- Whether an outcome returns a result that carries generated code. -/
def Outcome.emitsCode : Outcome → Bool
  | .returned (Option.some r) => r.code.isSome
  | _ => false

/-- The dispatcher list an entry-point kind appends its wrappers to. -/
def wrapperList (kind : EntryPointKind) (data : ContractGenerationData) :
    List RewriteNode :=
  match kind with
  | .External => data.generated_external_functions
  | .Constructor => data.generated_constructor_functions
  | .L1Handler => data.generated_l1_handler_functions

/-- Concatenate two generation records componentwise (the monoid operation
under which the second pass accumulates fragments in source order). -/
def dataAppend (a b : ContractGenerationData) : ContractGenerationData :=
  { generated_external_functions :=
      a.generated_external_functions ++ b.generated_external_functions
    generated_constructor_functions :=
      a.generated_constructor_functions ++ b.generated_constructor_functions
    generated_l1_handler_functions :=
      a.generated_l1_handler_functions ++ b.generated_l1_handler_functions
    abi_functions := a.abi_functions ++ b.abi_functions
    event_functions := a.event_functions ++ b.event_functions
    abi_events := a.abi_events ++ b.abi_events }

/-- The identifiers the first pass inserts into the use-set for one item
(named items and use leaves, honoring the skip guard). -/
def itemBoundIdents (item : Item) : List String :=
  if itemSkipped item then []
  else
    match item with
    | .Constant _ n => [n]
    | .Module _ n => [n]
    | .Use _ leaves => leaves.map UseLeaf.ident
    | .Impl _ n _ _ => [n]
    | .Struct _ n _ => [n]
    | .Enum _ n => [n]
    | .TypeAlias _ n => [n]
    | _ => []

/-- All pairs of a use-set satisfy the `super::` shape (the user-phase
invariant of the use-set accumulator). -/
def superShaped (m : List (String × String)) : Prop :=
  ∀ pr ∈ m, pr.2 = "super::" ++ pr.1

/-- Fixture: a `Storage` struct without the `starknet::storage` attribute. -/
def exStorageNoAttr : Item :=
  Item.Struct 10 "Storage" []

/-- Fixture: a contract module whose `Storage` struct lacks the
`starknet::storage` attribute. -/
def exModuleC1 : ItemModule :=
  { ptr := 1, name := "ctr", attributes := ["contract"], text := "mod ctr",
    body := .some ⟨[exStorageNoAttr]⟩ }

/-- Fixture: the second parameter used in the L1-handler witness — wrong
type (`u32`) and wrong name (`x`). -/
def c2BadParam : Param :=
  { ptr := 5, modifiers := [], name := "x", ty := "u32" }

/-- Fixture: an L1-handler parameter list whose index-1 parameter has both a
wrong type and a wrong name. -/
def c2Params : ParamList :=
  { ptr := 9,
    elements := [{ ptr := 4, modifiers := [Modifier.Ref], name := "self",
                   ty := "ContractState" }, c2BadParam] }

/-- Fixture: an L1-handler function with the bad parameter list above and no
generic parameters. -/
def c2Fn : FunctionWithBody :=
  { ptr := 6, attributes := ["l1_handler"],
    declaration := { name := "h", generic_params := Option.none,
                     params := c2Params } }

/-- Fixture: `#[external] fn foo(ref self: ContractState, x: felt252)` (the
S2 scenario function). -/
def s2Foo : FunctionWithBody :=
  { ptr := 20, attributes := ["external"],
    declaration :=
      { name := "foo", generic_params := Option.none,
        params := ⟨21, [{ ptr := 22, modifiers := [Modifier.Ref],
                          name := "self", ty := "ContractState" },
                        { ptr := 23, modifiers := [], name := "x",
                          ty := "felt252" }]⟩ } }

/-- Fixture: a properly annotated `Storage` struct. -/
def s2Storage : Item :=
  Item.Struct 30 "Storage" ["starknet::storage"]

/-- Fixture: the S2 scenario body items (storage struct plus `foo`). -/
def s2Items : List Item :=
  [s2Storage, Item.FreeFunction s2Foo]

/-- Fixture: a contract module with the `contract` attribute and no body. -/
def exModuleNoBody : ItemModule :=
  { ptr := 2, name := "c", attributes := ["contract"], text := "mod c",
    body := .none 7 }

/-- Fixture: a module without the `contract` attribute. -/
def exModulePlain : ItemModule :=
  { ptr := 3, name := "m", attributes := ["account"], text := "mod m",
    body := .some ⟨[]⟩ }

/-- Fixture: `#[external] fn g<T>(ref self: ContractState)` (the S5 generic
entry point). -/
def c6Fn : FunctionWithBody :=
  { ptr := 40, attributes := ["external"],
    declaration :=
      { name := "g", generic_params := Option.some ⟨41, "<T>"⟩,
        params := ⟨42, [{ ptr := 43, modifiers := [Modifier.Ref],
                          name := "self", ty := "ContractState" }]⟩ } }

/-- Fixture: an external function with a `mut` parameter. -/
def c7Fn : FunctionWithBody :=
  { ptr := 50, attributes := ["external"],
    declaration :=
      { name := "f", generic_params := Option.none,
        params := ⟨51, [{ ptr := 52, modifiers := [Modifier.Mut],
                          name := "x", ty := "felt252" }]⟩ } }

/-- Fixture: a body whose only item binds the seed name `OptionTrait`. -/
def c9Items : List Item :=
  [Item.Constant 60 "OptionTrait"]

/-- Fixture: a contract module whose body contains an impl-alias item. -/
def c10Module : ItemModule :=
  { ptr := 4, name := "c", attributes := ["contract"], text := "mod c",
    body := .some ⟨[Item.Constant 61 "K", Item.ImplAlias 70]⟩ }

/-! ## Theorems -/

/-- C5: a module without the `contract` attribute yields the empty result
from `handle_module` (no code, no diagnostics, no removal request), and
`handle_contract_by_storage` returns `None` when the enclosing module lacks
the attribute. -/
theorem C5_no_contract_attr (m : ItemModule)
    (h : hasAttr m.attributes "contract" = false) :
    handle_module m = PluginResult.default ∧
    handle_contract_by_storage (Option.some (AncestorModule.module m)) =
      Outcome.returned Option.none := by
  constructor
  · unfold handle_module
    simp [h]
  · unfold handle_contract_by_storage
    simp [CONTRACT_ATTR, h]

/-- Witness for C5 at a concrete module without the attribute. -/
theorem C5_witness :
    handle_module exModulePlain = PluginResult.default ∧
    handle_contract_by_storage (Option.some (AncestorModule.module exModulePlain)) =
      Outcome.returned Option.none :=
  C5_no_contract_attr exModulePlain (by decide)

/-- C4: a module with the `contract` attribute and no body yields exactly one
diagnostic with message "Contracts without body are not supported.", no
generated code, and no removal request — in both entry points. -/
theorem C4_no_body (m : ItemModule) (p : Nat)
    (h1 : hasAttr m.attributes "contract" = true)
    (h2 : m.body = MaybeModuleBody.none p) :
    handle_module m =
      { code := Option.none, diagnostics := [⟨noBodyMsg, m.ptr⟩],
        remove_original_item := false } ∧
    handle_contract_by_storage (Option.some (AncestorModule.module m)) =
      Outcome.returned (Option.some
        { code := Option.none, diagnostics := [⟨noBodyMsg, p⟩],
          remove_original_item := false }) := by
  constructor
  · unfold handle_module
    simp [h1, h2]
  · unfold handle_contract_by_storage
    simp [CONTRACT_ATTR, h1, h2]

/-- Witness for C4 at a concrete body-less contract module. -/
theorem C4_witness :
    handle_module exModuleNoBody =
      { code := Option.none, diagnostics := [⟨noBodyMsg, 2⟩],
        remove_original_item := false } ∧
    handle_contract_by_storage (Option.some (AncestorModule.module exModuleNoBody)) =
      Outcome.returned (Option.some
        { code := Option.none, diagnostics := [⟨noBodyMsg, 7⟩],
          remove_original_item := false }) :=
  C4_no_body exModuleNoBody 7 (by decide) rfl

/-- Any item list containing an impl-alias item makes the first pass hit the
`todo!()` (an `Except.error`). -/
theorem scanItems_error_of_implAlias (items : List Item) :
    ∀ (st : ScanState) (p : Nat), Item.ImplAlias p ∈ items →
      scanItems st items = Except.error () := by
  induction items with
  | nil =>
      intro st p h
      cases h
  | cons i l ih =>
      intro st p h
      rcases List.mem_cons.mp h with h | h
      · subst h
        simp [scanItems, scanItem, itemSkipped, itemIsEventDecl]
      · unfold scanItems
        cases hs : scanItem st i with
        | error e =>
            cases e
            rfl
        | ok st2 =>
            exact ih st2 p h

/-- C10: a contract module with a body containing an impl-alias item makes
`handle_contract_by_storage` panic (the explicit `todo!()` in the item
classification), so no result is returned. -/
theorem C10_impl_alias_panics (m : ItemModule) (b : ModuleBody) (p : Nat)
    (h1 : hasAttr m.attributes CONTRACT_ATTR = true)
    (h2 : m.body = MaybeModuleBody.some b)
    (h3 : Item.ImplAlias p ∈ b.items) :
    handle_contract_by_storage (Option.some (AncestorModule.module m)) =
      Outcome.panicked := by
  unfold handle_contract_by_storage
  simp [h1, h2, scanItems_error_of_implAlias b.items ScanState.init p h3]

/-- Witness for C10 at a concrete contract module with an impl-alias item. -/
theorem C10_witness :
    handle_contract_by_storage (Option.some (AncestorModule.module c10Module)) =
      Outcome.panicked :=
  C10_impl_alias_panics c10Module ⟨[Item.Constant 61 "K", Item.ImplAlias 70]⟩ 70
    (by decide) rfl (by decide)

/-- C1 counterexample: for the contract module `exModuleC1`, whose `Storage`
struct is not annotated with `starknet::storage`,
`handle_contract_by_storage` still produces generated code — the claim that
no code is produced across both entry points fails. -/
theorem C1_counterexample :
    hasAttr (itemAttributes exStorageNoAttr) "starknet::storage" = false ∧
    Outcome.emitsCode
      (handle_contract_by_storage (Option.some (AncestorModule.module exModuleC1))) =
      true := by
  constructor
  · rfl
  · rfl

/-- C1 (amended): a `Storage` struct without the `starknet::storage`
attribute makes `handle_module` emit exactly one diagnostic and no code;
`handle_contract_by_storage` performs no such check and still emits generated
code (whenever its first pass completes, i.e. no impl-alias panic). -/
theorem C1_missing_storage_attr (m : ItemModule) (b : ModuleBody) (s : Item)
    (h1 : hasAttr m.attributes "contract" = true)
    (h2 : m.body = MaybeModuleBody.some b)
    (h3 : b.items.find? isStorageStruct = Option.some s)
    (h4 : hasAttr (itemAttributes s) "starknet::storage" = false) :
    handle_module m =
      { code := Option.none, diagnostics := [⟨noStorageAttrMsg, m.ptr⟩],
        remove_original_item := false } ∧
    ∀ sc, scanItems ScanState.init b.items = Except.ok sc →
      Outcome.emitsCode
        (handle_contract_by_storage (Option.some (AncestorModule.module m))) =
        true := by
  constructor
  · unfold handle_module
    simp [h1, h2, h3, h4]
  · intro sc hsc
    unfold handle_contract_by_storage
    simp [CONTRACT_ATTR, h1, h2, hsc, Outcome.emitsCode]

/-- Witness for the amended C1 at the concrete module `exModuleC1`. -/
theorem C1_witness :
    handle_module exModuleC1 =
      { code := Option.none, diagnostics := [⟨noStorageAttrMsg, 1⟩],
        remove_original_item := false } ∧
    Outcome.emitsCode
      (handle_contract_by_storage (Option.some (AncestorModule.module exModuleC1))) =
      true := by
  have h := C1_missing_storage_attr exModuleC1 ⟨[exStorageNoAttr]⟩ exStorageNoAttr
    (by decide) rfl (by decide) (by decide)
  exact ⟨h.1, h.2 ScanState.init rfl⟩

/-- The L1 validator only appends diagnostics: validating after a prefix of
other diagnostics keeps the prefix in front. -/
theorem validate_l1_handler_append (params : ParamList)
    (d1 d2 : List PluginDiagnostic) :
    validate_l1_handler_first_parameter params (d1 ++ d2) =
      d1 ++ validate_l1_handler_first_parameter params d2 := by
  unfold validate_l1_handler_first_parameter
  cases h : params.elements.get? 1 with
  | none => simp
  | some p =>
      by_cases h1 : is_felt252 p.ty <;>
        by_cases h2 : maybe_strip_underscore p.name = L1_HANDLER_FIRST_PARAM_NAME <;>
          simp [h1, h2]

/-- The L1 validator's output is the input followed by its own additions. -/
theorem validate_l1_decompose (params : ParamList)
    (d : List PluginDiagnostic) :
    validate_l1_handler_first_parameter params d =
      d ++ validate_l1_handler_first_parameter params [] := by
  have h := validate_l1_handler_append params d []
  simpa using h

/-- C2: the L1-handler signature checks — a missing index-1 parameter yields
the missing-parameter diagnostic; an existing index-1 parameter yields the
type diagnostic iff its type is not `felt252` and the name diagnostic iff its
underscore-stripped name is not `from_address`, independently (both can
appear); and for a function without generics handled as an L1 handler, the
emitted diagnostics are exactly the validator's. -/
theorem C2_l1_handler_validation (params : ParamList)
    (d : List PluginDiagnostic) :
    (params.elements.get? 1 = Option.none →
      validate_l1_handler_first_parameter params d =
        d ++ [⟨l1MissingMsg, params.ptr⟩]) ∧
    (∀ p, params.elements.get? 1 = Option.some p →
      validate_l1_handler_first_parameter params d =
        d ++ (if is_felt252 p.ty then [] else [⟨l1TypeMsg, p.ptr⟩])
          ++ (if maybe_strip_underscore p.name = L1_HANDLER_FIRST_PARAM_NAME
              then [] else [⟨l1NameMsg, p.ptr⟩])) ∧
    (∀ (f : FunctionWithBody) (fname : RewriteNode)
        (data : ContractGenerationData),
      f.declaration.generic_params = Option.none →
      (handle_entry_point EntryPointKind.L1Handler f fname d data).1 =
        validate_l1_handler_first_parameter f.declaration.params d) := by
  refine ⟨?_, ?_, ?_⟩
  · intro h
    unfold validate_l1_handler_first_parameter
    rw [h]
  · intro p h
    unfold validate_l1_handler_first_parameter
    rw [h]
    by_cases h1 : is_felt252 p.ty <;>
      by_cases h2 : maybe_strip_underscore p.name = L1_HANDLER_FIRST_PARAM_NAME <;>
        simp [h1, h2]
  · intro f fname data hg
    unfold handle_entry_point
    simp [hg, generate_entry_point_wrapper]

/-- Witness for C2: a parameter list whose index-1 parameter has type `u32`
and name `x` receives both the type and the name diagnostic; the L1
entry-point path emits exactly the validator's diagnostics. -/
theorem C2_witness :
    validate_l1_handler_first_parameter c2Params [] =
      [⟨l1TypeMsg, 5⟩, ⟨l1NameMsg, 5⟩] ∧
    (handle_entry_point EntryPointKind.L1Handler c2Fn (RewriteNode.Text "h") []
        ContractGenerationData.default).1 =
      validate_l1_handler_first_parameter c2Params [] := by
  have h := C2_l1_handler_validation c2Params []
  constructor
  · have h2 := h.2.1 c2BadParam rfl
    rw [h2]
    decide
  · exact h.2.2 c2Fn (RewriteNode.Text "h") ContractGenerationData.default rfl

/-- C3 counterexample: for `#[external] fn foo(ref self: ContractState,
x: felt252)`, the declaration recorded in the ABI row keeps the `ref`
modifier — it is not the claimed `fn foo(self: ContractState, x: felt252)`
(only `mut` is stripped). -/
theorem C3_counterexample :
    ((handle_entry_point EntryPointKind.External s2Foo (RewriteNode.Text "foo")
        [] ContractGenerationData.default).2.abi_functions.map
      (fun r => renderDeclaration r.decl)) =
      ["fn foo(ref self: ContractState, x: felt252)"] ∧
    ("fn foo(ref self: ContractState, x: felt252)" : String) ≠
      "fn foo(self: ContractState, x: felt252)" := by
  constructor
  · rfl
  · decide

/-- C3 (amended): for the S2 scenario items, the ABI row for `foo` renders as
`#[external]` plus `fn foo(ref self: ContractState, x: felt252);` (with the
generated newline-indent separators; `ref` is preserved, only `mut` would be
stripped), and the external dispatcher list contains the generated wrapper
for `foo`. -/
theorem C3_external_row_keeps_ref :
    scanItems ScanState.init s2Items =
      Except.ok { extra_uses := [], has_event := false,
                  kept_original_items :=
                    [RewriteNode.Copied (Item.FreeFunction s2Foo)] } ∧
    ((genItems (extraUsesNode (addSeedUses [])) false s2Items).data.abi_functions.map
      (fun r => (AbiRow.toRewriteNode r).render)) =
      ["#[external]\n        fn foo(ref self: ContractState, x: felt252);\n        "] ∧
    (genItems (extraUsesNode (addSeedUses []))
        false s2Items).data.generated_external_functions =
      [RewriteNode.Modified
        [RewriteNode.Text "fn foo_wrapper for ", RewriteNode.Text "foo"],
       RewriteNode.Text "\n        "] := by
  refine ⟨rfl, rfl, rfl⟩

/-- C6: an entry point with a generic-parameter list gets a diagnostic whose
stable pointer is the generic-parameter list's, while the ABI row is still
appended and the dispatcher wrapper is still generated into the kind's
list. -/
theorem C6_generic_entry_point (kind : EntryPointKind) (f : FunctionWithBody)
    (fname : RewriteNode) (d : List PluginDiagnostic)
    (data : ContractGenerationData) (gp : GenericParams)
    (h : f.declaration.generic_params = Option.some gp) :
    PluginDiagnostic.mk genericArgsMsg gp.ptr ∈
      (handle_entry_point kind f fname d data).1 ∧
    (handle_entry_point kind f fname d data).2.abi_functions =
      data.abi_functions ++
        [⟨kind.get_attr,
          { f.declaration with
              params := ⟨f.declaration.params.ptr,
                         clearMutParams f.declaration.params.elements⟩ }⟩] ∧
    wrapperList kind (handle_entry_point kind f fname d data).2 =
      wrapperList kind data ++
        [RewriteNode.Modified
          [RewriteNode.Text ("fn " ++ f.declaration.name ++ "_wrapper for "),
           fname],
         RewriteNode.Text "\n        "] := by
  cases kind with
  | External =>
      unfold handle_entry_point
      simp [h, generate_entry_point_wrapper, wrapperList]
  | Constructor =>
      unfold handle_entry_point
      simp [h, generate_entry_point_wrapper, wrapperList]
  | L1Handler =>
      unfold handle_entry_point
      simp only [h, generate_entry_point_wrapper, wrapperList]
      refine ⟨?_, by simp, by simp⟩
      rw [validate_l1_decompose]
      simp

/-- Witness for C6 at the concrete generic entry point `c6Fn`. -/
theorem C6_witness :
    PluginDiagnostic.mk genericArgsMsg 41 ∈
      (handle_entry_point EntryPointKind.External c6Fn (RewriteNode.Text "g")
        [] ContractGenerationData.default).1 ∧
    (handle_entry_point EntryPointKind.External c6Fn (RewriteNode.Text "g")
        [] ContractGenerationData.default).2.abi_functions =
      ContractGenerationData.default.abi_functions ++
        [⟨EntryPointKind.External.get_attr,
          { c6Fn.declaration with
              params := ⟨c6Fn.declaration.params.ptr,
                         clearMutParams c6Fn.declaration.params.elements⟩ }⟩] ∧
    wrapperList EntryPointKind.External
        (handle_entry_point EntryPointKind.External c6Fn (RewriteNode.Text "g")
          [] ContractGenerationData.default).2 =
      wrapperList EntryPointKind.External ContractGenerationData.default ++
        [RewriteNode.Modified
          [RewriteNode.Text ("fn " ++ c6Fn.declaration.name ++ "_wrapper for "),
           RewriteNode.Text "g"],
         RewriteNode.Text "\n        "] :=
  C6_generic_entry_point EntryPointKind.External c6Fn (RewriteNode.Text "g")
    [] ContractGenerationData.default ⟨41, "<T>"⟩ rfl

/-- Every parameter produced by the `mut`-clearing loop is free of `mut`. -/
theorem clearMutParams_no_mut (ps : List Param) :
    ∀ p ∈ clearMutParams ps, Modifier.Mut ∉ p.modifiers := by
  intro p hp
  unfold clearMutParams at hp
  rcases List.mem_map.mp hp with ⟨q, hq, rfl⟩
  by_cases hm : is_mut_param q
  · simp [hm]
  · simp only [hm, if_false, Bool.false_eq_true, if_neg]
    intro hmem
    apply hm
    unfold is_mut_param
    simpa [List.contains_iff_exists_mem_beq] using
      List.elem_eq_true_of_mem hmem

/-- C7: for every entry point of every kind, the row appended to
`abi_functions` carries no `mut` modifier on any parameter. -/
theorem C7_no_mut_in_abi_row (kind : EntryPointKind) (f : FunctionWithBody)
    (fname : RewriteNode) (d : List PluginDiagnostic)
    (data : ContractGenerationData) :
    ∃ row,
      (handle_entry_point kind f fname d data).2.abi_functions =
        data.abi_functions ++ [row] ∧
      ∀ p ∈ row.decl.params.elements, Modifier.Mut ∉ p.modifiers := by
  refine ⟨⟨kind.get_attr,
    { f.declaration with
        params := ⟨f.declaration.params.ptr,
                   clearMutParams f.declaration.params.elements⟩ }⟩, ?_, ?_⟩
  · unfold handle_entry_point
    cases kind <;> cases hg : f.declaration.generic_params <;>
      simp [generate_entry_point_wrapper]
  · intro p hp
    exact clearMutParams_no_mut _ p hp

/-- Witness for C7 at a concrete external function with a `mut` parameter. -/
theorem C7_witness :
    ∃ row,
      (handle_entry_point EntryPointKind.External c7Fn (RewriteNode.Text "f")
          [] ContractGenerationData.default).2.abi_functions =
        ContractGenerationData.default.abi_functions ++ [row] ∧
      ∀ p ∈ row.decl.params.elements, Modifier.Mut ∉ p.modifiers :=
  C7_no_mut_in_abi_row EntryPointKind.External c7Fn (RewriteNode.Text "f")
    [] ContractGenerationData.default

/-- `dataAppend` is associative. -/
theorem dataAppend_assoc (a b c : ContractGenerationData) :
    dataAppend (dataAppend a b) c = dataAppend a (dataAppend b c) := by
  simp [dataAppend, List.append_assoc]

/-- The default record is a left identity for `dataAppend`. -/
theorem dataAppend_default_left (a : ContractGenerationData) :
    dataAppend ContractGenerationData.default a = a := by
  cases a
  simp [dataAppend, ContractGenerationData.default]

/-- The default record is a right identity for `dataAppend`. -/
theorem dataAppend_default_right (a : ContractGenerationData) :
    dataAppend a ContractGenerationData.default = a := by
  cases a
  simp [dataAppend, ContractGenerationData.default]

/-- `handle_entry_point` only appends: its diagnostics are the input followed
by its own additions, and its record is the input record `dataAppend`-ed with
the fragments it contributes (which depend only on the function). -/
theorem handle_entry_point_decompose (kind : EntryPointKind)
    (f : FunctionWithBody) (fname : RewriteNode) (d : List PluginDiagnostic)
    (data : ContractGenerationData) :
    (handle_entry_point kind f fname d data).1 =
      d ++ (handle_entry_point kind f fname [] ContractGenerationData.default).1 ∧
    (handle_entry_point kind f fname d data).2 =
      dataAppend data
        (handle_entry_point kind f fname [] ContractGenerationData.default).2 := by
  cases kind with
  | External =>
      unfold handle_entry_point
      cases hg : f.declaration.generic_params <;>
        simp [hg, generate_entry_point_wrapper, dataAppend,
          ContractGenerationData.default]
  | Constructor =>
      unfold handle_entry_point
      cases hg : f.declaration.generic_params <;>
        simp [hg, generate_entry_point_wrapper, dataAppend,
          ContractGenerationData.default]
  | L1Handler =>
      unfold handle_entry_point
      cases hg : f.declaration.generic_params with
      | none =>
          refine ⟨?_, ?_⟩
          · simp only [hg, generate_entry_point_wrapper]
            rw [validate_l1_decompose]
          · simp [hg, generate_entry_point_wrapper, dataAppend,
              ContractGenerationData.default]
      | some gp =>
          refine ⟨?_, ?_⟩
          · simp only [hg, generate_entry_point_wrapper]
            rw [List.nil_append, validate_l1_handler_append]
          · simp [hg, generate_entry_point_wrapper, dataAppend,
              ContractGenerationData.default]

/-- A fold over `GenState` whose step contributes state-independent appended
fragments decomposes: running it from any state equals that state followed by
the run from the initial state. -/
theorem foldl_genstate_decompose {α : Type} (step : GenState → α → GenState)
    (hstep : ∀ (s : GenState) (a : α),
      (step s a).diagnostics =
        s.diagnostics ++ (step GenState.init a).diagnostics ∧
      (step s a).data = dataAppend s.data (step GenState.init a).data)
    (l : List α) :
    ∀ s : GenState,
      (l.foldl step s).diagnostics =
        s.diagnostics ++ (l.foldl step GenState.init).diagnostics ∧
      (l.foldl step s).data =
        dataAppend s.data (l.foldl step GenState.init).data := by
  induction l with
  | nil =>
      intro s
      simp [GenState.init, dataAppend_default_right]
  | cons a l ih =>
      intro s
      simp only [List.foldl_cons]
      have h1 := ih (step s a)
      have h2 := ih (step GenState.init a)
      have h0 := hstep s a
      constructor
      · rw [h1.1, h2.1, h0.1, List.append_assoc]
      · rw [h1.2, h2.2, h0.2, dataAppend_assoc]

/-- The impl-body loop only appends diagnostics and fragments, in order. -/
theorem genImplFunctions_decompose (impl_name : String)
    (impl_items : List ImplItem) (s : GenState) :
    (genImplFunctions impl_name s impl_items).diagnostics =
      s.diagnostics ++
        (genImplFunctions impl_name GenState.init impl_items).diagnostics ∧
    (genImplFunctions impl_name s impl_items).data =
      dataAppend s.data
        (genImplFunctions impl_name GenState.init impl_items).data := by
  refine foldl_genstate_decompose _ ?_ impl_items s
  intro st a
  cases a with
  | Other p =>
      constructor
      · show st.diagnostics = st.diagnostics ++ GenState.init.diagnostics
        simp [GenState.init]
      · show st.data = dataAppend st.data GenState.init.data
        show st.data = dataAppend st.data ContractGenerationData.default
        rw [dataAppend_default_right]
  | Function fwb =>
      have hs := handle_entry_point_decompose EntryPointKind.External fwb
        (RewriteNode.Modified
          [RewriteNode.Text impl_name, RewriteNode.Text "::",
           RewriteNode.Text fwb.declaration.name])
        st.diagnostics st.data
      constructor
      · show (handle_entry_point EntryPointKind.External fwb
            (RewriteNode.Modified
              [RewriteNode.Text impl_name, RewriteNode.Text "::",
               RewriteNode.Text fwb.declaration.name])
            st.diagnostics st.data).1 =
          st.diagnostics ++
            (handle_entry_point EntryPointKind.External fwb
              (RewriteNode.Modified
                [RewriteNode.Text impl_name, RewriteNode.Text "::",
                 RewriteNode.Text fwb.declaration.name])
              GenState.init.diagnostics GenState.init.data).1
        rw [hs.1]
        rfl
      · show (handle_entry_point EntryPointKind.External fwb
            (RewriteNode.Modified
              [RewriteNode.Text impl_name, RewriteNode.Text "::",
               RewriteNode.Text fwb.declaration.name])
            st.diagnostics st.data).2 =
          dataAppend st.data
            (handle_entry_point EntryPointKind.External fwb
              (RewriteNode.Modified
                [RewriteNode.Text impl_name, RewriteNode.Text "::",
                 RewriteNode.Text fwb.declaration.name])
              GenState.init.diagnostics GenState.init.data).2
        rw [hs.2]
        rfl

/-- One second-pass step only appends diagnostics and fragments. -/
theorem genItem_decompose (e : RewriteNode) (he : Bool) (s : GenState)
    (i : Item) :
    (genItem e he s i).diagnostics =
      s.diagnostics ++ (genItem e he GenState.init i).diagnostics ∧
    (genItem e he s i).data =
      dataAppend s.data (genItem e he GenState.init i).data := by
  cases i with
  | FreeFunction f =>
      by_cases hev : hasAttr f.attributes EVENT_ATTR
      · simp [genItem, hev, handle_event, GenState.init, dataAppend,
          ContractGenerationData.default]
      · cases hk : EntryPointKind.try_from_function_with_body f with
        | none =>
            simp [genItem, hev, hk, GenState.init, dataAppend_default_right]
        | some kind =>
            have h := handle_entry_point_decompose kind f
              (RewriteNode.Text f.declaration.name) s.diagnostics s.data
            simp only [genItem, hev, Bool.false_eq_true, if_false, hk]
            exact ⟨by rw [h.1]; simp [GenState.init],
                   by rw [h.2]; simp [GenState.init]⟩
  | Impl p n attrs body =>
      by_cases hext : hasAttr attrs EXTERNAL_ATTR
      · cases body with
        | none =>
            simp [genItem, hext, GenState.init, dataAppend_default_right]
        | some impl_items =>
            simp only [genItem, hext]
            simpa using genImplFunctions_decompose n impl_items s
      · simp [genItem, hext, GenState.init, dataAppend_default_right]
  | Struct p n attrs =>
      by_cases hst : n = STORAGE_STRUCT_NAME
      · simp [genItem, hst, handle_storage_struct, GenState.init,
          dataAppend_default_right]
      · simp [genItem, hst, GenState.init, dataAppend_default_right]
  | Constant p n =>
      simp [genItem, GenState.init, dataAppend_default_right]
  | Module p n =>
      simp [genItem, GenState.init, dataAppend_default_right]
  | Use p leaves =>
      simp [genItem, GenState.init, dataAppend_default_right]
  | Enum p n =>
      simp [genItem, GenState.init, dataAppend_default_right]
  | TypeAlias p n =>
      simp [genItem, GenState.init, dataAppend_default_right]
  | ExternFunction p =>
      simp [genItem, GenState.init, dataAppend_default_right]
  | ExternType p =>
      simp [genItem, GenState.init, dataAppend_default_right]
  | Trait p =>
      simp [genItem, GenState.init, dataAppend_default_right]
  | Missing p =>
      simp [genItem, GenState.init, dataAppend_default_right]
  | ImplAlias p =>
      simp [genItem, GenState.init, dataAppend_default_right]

/-- The second pass from any intermediate state decomposes into that state
followed by the pass's own contributions. -/
theorem genItemsFrom_decompose (e : RewriteNode) (he : Bool)
    (items : List Item) :
    ∀ s : GenState,
      (genItemsFrom e he s items).diagnostics =
        s.diagnostics ++ (genItems e he items).diagnostics ∧
      (genItemsFrom e he s items).data =
        dataAppend s.data (genItems e he items).data := by
  intro s
  exact foldl_genstate_decompose (genItem e he)
    (fun st i => genItem_decompose e he st i) items s

/-- C8: fragment order matches source item order, separately within each of
the three dispatcher lists and the ABI-function and event lists — the second
pass over a concatenation of item lists yields the concatenation, in order,
of the fragment lists of the two parts (and likewise for diagnostics). -/
theorem C8_source_order (e : RewriteNode) (he : Bool) (xs ys : List Item) :
    (genItems e he (xs ++ ys)).data =
      dataAppend (genItems e he xs).data (genItems e he ys).data ∧
    (genItems e he (xs ++ ys)).diagnostics =
      (genItems e he xs).diagnostics ++ (genItems e he ys).diagnostics := by
  have hsplit : genItems e he (xs ++ ys) =
      genItemsFrom e he (genItems e he xs) ys := by
    simp [genItems, genItemsFrom, List.foldl_append]
  have h := genItemsFrom_decompose e he ys (genItems e he xs)
  exact ⟨by rw [hsplit, h.2], by rw [hsplit, h.1]⟩

/-- Flipping only the `has_event` flag leaves the use-set unchanged. -/
theorem extra_uses_ite_event (c : Prop) [Decidable c] (st : ScanState) :
    (if c then { st with has_event := true } else st).extra_uses =
      st.extra_uses := by
  split <;> rfl

/-- `orInsert` preserves the `super::` shape when inserting a
`super::`-shaped pair. -/
theorem orInsert_shaped (m : List (String × String)) (k : String)
    (h : superShaped m) :
    superShaped (orInsert m k ("super::" ++ k)) := by
  unfold orInsert
  split
  · exact h
  · intro pr hpr
    rcases List.mem_append.mp hpr with h1 | h1
    · exact h pr h1
    · rw [List.mem_singleton.mp h1]

/-- Inserting into the use-set can only grow its key set. -/
theorem orInsert_keys_mono (m : List (String × String)) (k v a : String)
    (h : a ∈ m.map Prod.fst) : a ∈ (orInsert m k v).map Prod.fst := by
  unfold orInsert
  split
  · exact h
  · simp only [List.map_append]
    exact List.mem_append_left _ h

/-- After `orInsert`, the inserted key is present. -/
theorem orInsert_keys_self (m : List (String × String)) (k v : String) :
    k ∈ (orInsert m k v).map Prod.fst := by
  unfold orInsert
  split
  · next hc =>
      rcases List.any_eq_true.mp hc with ⟨p, hp, he⟩
      simp only [decide_eq_true_eq] at he
      exact List.mem_map.mpr ⟨p, hp, he⟩
  · simp

/-- Looking up a key that is present on the left of an append never reaches
the right part. -/
theorem lookup_append_of_mem_keys (m m' : List (String × String))
    (a : String) (hk : a ∈ m.map Prod.fst) :
    (m ++ m').lookup a = m.lookup a := by
  induction m with
  | nil => simp at hk
  | cons pr l ih =>
      obtain ⟨k0, v0⟩ := pr
      cases hbeq : (a == k0) with
      | true => simp [List.lookup, hbeq]
      | false =>
          have hak : a ≠ k0 := by simpa using hbeq
          have hk2 : a ∈ l.map Prod.fst := by
            simp only [List.map_cons, List.mem_cons] at hk
            rcases hk with hk | hk
            · exact absurd hk hak
            · exact hk
          simp [List.lookup, hbeq, ih hk2]

/-- A key present in the use-set keeps its binding under `orInsert` (first
insertion wins). -/
theorem orInsert_lookup_mem (m : List (String × String)) (k v a : String)
    (hk : a ∈ m.map Prod.fst) :
    (orInsert m k v).lookup a = m.lookup a := by
  unfold orInsert
  split
  · rfl
  · exact lookup_append_of_mem_keys m [(k, v)] a hk

/-- The folded `super::` insertions preserve the `super::` shape. -/
theorem foldl_orInsertSuper_shaped (idents : List String) :
    ∀ m, superShaped m →
      superShaped (idents.foldl
        (fun m n => orInsert m n ("super::" ++ n)) m) := by
  induction idents with
  | nil => intro m h; exact h
  | cons n l ih =>
      intro m h
      simp only [List.foldl_cons]
      exact ih _ (orInsert_shaped m n h)

/-- After the folded insertions, every previously present key and every
inserted identifier is a key. -/
theorem foldl_orInsertSuper_keys (idents : List String) :
    ∀ m a, (a ∈ m.map Prod.fst ∨ a ∈ idents) →
      a ∈ (idents.foldl
        (fun m n => orInsert m n ("super::" ++ n)) m).map Prod.fst := by
  induction idents with
  | nil =>
      intro m a h
      rcases h with h | h
      · exact h
      · cases h
  | cons n l ih =>
      intro m a h
      simp only [List.foldl_cons]
      rcases h with h | h
      · exact ih _ a (Or.inl (orInsert_keys_mono m n _ a h))
      · rcases List.mem_cons.mp h with h | h
        · subst h
          exact ih _ a (Or.inl (orInsert_keys_self m a _))
        · exact ih _ a (Or.inr h)

/-- In a `super::`-shaped use-set, every present key maps to its
`super::`-path. -/
theorem lookup_of_shaped (m : List (String × String))
    (h : superShaped m) (a : String) (hk : a ∈ m.map Prod.fst) :
    m.lookup a = Option.some ("super::" ++ a) := by
  induction m with
  | nil => simp at hk
  | cons pr l ih =>
      obtain ⟨k, v⟩ := pr
      cases hbeq : (a == k) with
      | true =>
          have hak : a = k := by simpa using hbeq
          subst hak
          have hv := h (a, v) (List.mem_cons_self _ _)
          simp only at hv
          simp [List.lookup, hv]
      | false =>
          have hak : a ≠ k := by simpa using hbeq
          have hk2 : a ∈ l.map Prod.fst := by
            simp only [List.map_cons, List.mem_cons] at hk
            rcases hk with hk | hk
            · exact absurd hk hak
            · exact hk
          simp only [List.lookup, hbeq]
          exact ih (fun pr hpr => h pr (List.mem_cons_of_mem _ hpr)) hk2

/-- The seed merge never rebinds a key that is already present. -/
theorem addSeedUses_lookup (m : List (String × String)) (a : String)
    (hk : a ∈ m.map Prod.fst) :
    (addSeedUses m).lookup a = m.lookup a := by
  unfold addSeedUses
  have haux : ∀ (seeds : List (String × String)) (m : List (String × String)),
      a ∈ m.map Prod.fst →
      (seeds.foldl (fun m p => orInsert m p.1 p.2) m).lookup a =
        m.lookup a := by
    intro seeds
    induction seeds with
    | nil => intro m _; rfl
    | cons p l ih =>
        intro m hm
        simp only [List.foldl_cons]
        rw [ih _ (orInsert_keys_mono m p.1 p.2 a hm)]
        exact orInsert_lookup_mem m p.1 p.2 a hm
  exact haux seedUses m hk

/-- The use-set computed by the first pass is exactly the fold of
`super::`-insertions over the identifiers the items bind, in source order. -/
theorem scanItem_extra_uses (st st' : ScanState) (i : Item)
    (h : scanItem st i = Except.ok st') :
    st'.extra_uses = (itemBoundIdents i).foldl
      (fun m n => orInsert m n ("super::" ++ n)) st.extra_uses := by
  unfold scanItem at h
  by_cases hsk : itemSkipped i
  · rw [if_pos hsk] at h
    cases h
    simp [itemBoundIdents, hsk]
  · rw [if_neg hsk] at h
    unfold itemBoundIdents
    rw [if_neg hsk]
    cases i with
    | Constant p n =>
        cases h
        simp [insertSuperUse, extra_uses_ite_event]
    | Module p n =>
        cases h
        simp [insertSuperUse, extra_uses_ite_event]
    | Use p leaves =>
        cases h
        have haux : ∀ (ls : List UseLeaf) (s : ScanState),
            (scanUseLeaves s ls).extra_uses =
              (ls.map UseLeaf.ident).foldl
                (fun m n => orInsert m n ("super::" ++ n)) s.extra_uses := by
          intro ls
          induction ls with
          | nil => intro s; rfl
          | cons lf l ih =>
              intro s
              rw [show (scanUseLeaves s (lf :: l)) =
                scanUseLeaves
                  { (if lf.ident = "Event" then { s with has_event := true }
                     else s) with
                    extra_uses := orInsert
                      (if lf.ident = "Event" then { s with has_event := true }
                       else s).extra_uses lf.ident
                      ("super::" ++ lf.ident) } l from rfl]
              rw [ih]
              simp [extra_uses_ite_event]
        rw [haux leaves _]
        simp [extra_uses_ite_event]
    | Impl p n attrs body =>
        cases h
        simp [insertSuperUse, extra_uses_ite_event]
    | Struct p n attrs =>
        cases h
        simp [insertSuperUse, extra_uses_ite_event]
    | Enum p n =>
        cases h
        simp [insertSuperUse, extra_uses_ite_event]
    | TypeAlias p n =>
        cases h
        simp [insertSuperUse, extra_uses_ite_event]
    | ExternFunction p =>
        cases h
        simp [extra_uses_ite_event]
    | ExternType p =>
        cases h
        simp [extra_uses_ite_event]
    | Trait p =>
        cases h
        simp [extra_uses_ite_event]
    | FreeFunction f =>
        cases h
        simp [extra_uses_ite_event]
    | Missing p =>
        cases h
        simp [extra_uses_ite_event]
    | ImplAlias p =>
        cases h

/-- The whole first pass accumulates exactly the `super::`-insertions of all
bound identifiers, in source order. -/
theorem scanItems_extra_uses (items : List Item) :
    ∀ (st sc : ScanState), scanItems st items = Except.ok sc →
      sc.extra_uses = (items.flatMap itemBoundIdents).foldl
        (fun m n => orInsert m n ("super::" ++ n)) st.extra_uses := by
  induction items with
  | nil =>
      intro st sc h
      cases h
      rfl
  | cons i l ih =>
      intro st sc h
      unfold scanItems at h
      cases hs : scanItem st i with
      | error e => rw [hs] at h; cases h
      | ok st1 =>
          rw [hs] at h
          have h1 := scanItem_extra_uses st st1 i hs
          have h2 := ih st1 sc h
          rw [h2, h1]
          simp [List.flatMap_cons, List.foldl_append]

/-- C9: the seed set is merged only after all user items and use leaves, and
insertion never overrides an existing key — every identifier bound by a user
item or use leaf ends up mapped to its `super::` path in the final use-set,
and no seed path has the `super::` shape (so such an identifier is never
bound to a seed path). -/
theorem C9_seed_never_overrides (items : List Item) (sc : ScanState)
    (ident : String)
    (hscan : scanItems ScanState.init items = Except.ok sc)
    (hbound : ident ∈ items.flatMap itemBoundIdents) :
    (addSeedUses sc.extra_uses).lookup ident =
      Option.some ("super::" ++ ident) ∧
    ∀ pr ∈ seedUses, "super::" ++ pr.1 ≠ pr.2 := by
  have hx := scanItems_extra_uses items ScanState.init sc hscan
  have hshaped : superShaped sc.extra_uses := by
    rw [hx]
    exact foldl_orInsertSuper_shaped _ _ (by intro pr hpr; cases hpr)
  have hkey : ident ∈ sc.extra_uses.map Prod.fst := by
    rw [hx]
    exact foldl_orInsertSuper_keys _ _ _ (Or.inr hbound)
  constructor
  · rw [addSeedUses_lookup _ _ hkey]
    exact lookup_of_shaped _ hshaped _ hkey
  · decide

/-- Witness for C9: a user constant named `OptionTrait` wins over the seed
entry for `OptionTrait`. -/
theorem C9_witness :
    (addSeedUses [("OptionTrait", "super::OptionTrait")]).lookup "OptionTrait" =
      Option.some "super::OptionTrait" := by
  have h := C9_seed_never_overrides c9Items
    ⟨[("OptionTrait", "super::OptionTrait")], false,
     [RewriteNode.Copied (Item.Constant 60 "OptionTrait")]⟩
    "OptionTrait" rfl (by decide)
  exact h.1

end StarknetPlugin
